import Mathlib

set_option maxRecDepth 8000

/- Shallow embedding of src/cortex/permission_manager.py.

   The filesystem seen by os.walk is modelled as a tree of entries: a file
   carries the result of os.stat on it (some uid, or none when stat raises
   PermissionError or FileNotFoundError), a directory carries its children.
   A base path that does not exist is modelled as the absent listing (os.walk
   then yields nothing).  The console is modelled as the list of printed
   strings, and subprocess.run as a recorded call description together with an
   environment-chosen outcome of the privileged command. -/

/-- Python os.path.join for the cases exercised by the module. -/
def pathJoin (root name : String) : String := root ++ "/" ++ name

/-- EXCLUDED_DIRS from permission_manager.py (a set; listed here in source order). -/
def EXCLUDED_DIRS : List String :=
  ["venv", ".venv", ".git", "__pycache__", "node_modules", ".pytest_cache"]

/-- One entry of a scanned directory listing: a file with its stat result
    (none when os.stat raises), or a subdirectory with its own listing. -/
inductive Entry where
  | file (name : String) (stat : Option Nat)
  | dir (name : String) (children : List Entry)

/-- The inner loop of diagnose over the files of one directory level: a stat
    failure is skipped via continue, and a file whose owning uid differs from
    the host uid is appended as its joined full path. -/
def fileMismatches (hostUid : Nat) (root : String) (es : List Entry) : List String :=
  es.filterMap fun e =>
    match e with
    | Entry.file name (some uid) =>
        if uid != hostUid then some (pathJoin root name) else none
    | Entry.file _ none => none
    | Entry.dir _ _ => none

mutual
/-- The descent of os.walk into one directory entry: files contribute nothing
    at this stage, a directory whose name is a member of EXCLUDED_DIRS is
    pruned (dirs is filtered in place before the walk descends), and every
    other directory contributes its own level of file mismatches followed by
    its recursive descent. -/
def walkEntry (hostUid : Nat) (root : String) : Entry → List String
  | Entry.file _ _ => []
  | Entry.dir name cs =>
      if EXCLUDED_DIRS.contains name then []
      else fileMismatches hostUid (pathJoin root name) cs
        ++ dirRec hostUid (pathJoin root name) cs

/-- The descent of os.walk into the subdirectories of one level, in order. -/
def dirRec (hostUid : Nat) (root : String) : List Entry → List String
  | [] => []
  | e :: rest => walkEntry hostUid root e ++ dirRec hostUid root rest
end

/-- All mismatched paths produced by the walk from root over the listing es,
    in the top-down order of os.walk: the files of a level come before the
    files of its subdirectories. -/
def walkAll (hostUid : Nat) (root : String) (es : List Entry) : List String :=
  fileMismatches hostUid root es ++ dirRec hostUid root es

/-- The manager object: base path and the cached host ids. -/
structure PermissionManager where
  base_path : String
  host_uid : Nat
  host_gid : Nat
deriving DecidableEq

/-- The constructor: on Windows the uid and gid fall back to the sentinel
    1000, otherwise os.getuid and os.getgid are consulted (passed in here as
    the values getuid and getgid). -/
def mkPermissionManager (system : String) (getuid getgid : Nat)
    (base_path : String) : PermissionManager :=
  { base_path := base_path
    host_uid := if system == "Windows" then 1000 else getuid
    host_gid := if system == "Windows" then 1000 else getgid }

/-- diagnose: os.walk over the base path; a missing base path yields an empty
    walk, hence an empty result. -/
def diagnose (pm : PermissionManager) (fs : Option (List Entry)) : List String :=
  match fs with
  | none => []
  | some es => walkAll pm.host_uid pm.base_path es

/-- generate_compose_settings: the recommended user mapping snippet. -/
def generate_compose_settings (pm : PermissionManager) : String :=
  "    user: \"" ++ toString pm.host_uid ++ ":" ++ toString pm.host_gid ++ "\"\n"
    ++ "    # Or for better portability across different machines:\n"
    ++ "    # user: \"${UID}:${GID}\""

/-- Bool test that the first character list starts the second. -/
def leadsWith : List Char → List Char → Bool
  | [], _ => true
  | _ :: _, [] => false
  | a :: as, b :: bs => a == b && leadsWith as bs

/-- Bool test that the needle occurs contiguously inside the hay. -/
def charsContains : List Char → List Char → Bool
  | [], needle => leadsWith needle []
  | h :: t, needle => leadsWith needle (h :: t) || charsContains t needle

/-- Python substring membership: needle in hay. -/
def strContains (hay needle : String) : Bool := charsContains hay.data needle.data

/-- The state of the docker-compose.yml file directly under the base path:
    absent, present but unreadable (open or read raises), or readable with
    its text content. -/
inductive ComposeFile where
  | missing
  | unreadable
  | readable (content : String)

/-- The heading printed before the recommended settings. -/
def advisoryHeader : String :=
  "\n[bold yellow]💡 Recommended Docker-Compose settings:[/bold yellow]"

/-- check_compose_config: nothing is printed when the file is missing or
    unreadable; when readable, the advisory (two console prints) is emitted
    exactly when the content lacks the substring user: . -/
def check_compose_config (pm : PermissionManager) (file : ComposeFile) :
    List String :=
  match file with
  | ComposeFile.missing => []
  | ComposeFile.unreadable => []
  | ComposeFile.readable content =>
      if strContains content "user:" then []
      else [advisoryHeader, generate_compose_settings pm]

/-- One recorded subprocess.run invocation. -/
structure SubprocessCall where
  argv : List String
  check : Bool
  capture_output : Bool
  timeout : Nat
deriving DecidableEq

/-- The outcome of the privileged command, chosen by the environment: normal
    exit, non-zero exit (CalledProcessError via check=True), timeout expiry
    (TimeoutExpired), or a PermissionError raised around the call. -/
inductive RunOutcome where
  | ok
  | calledProcessError
  | timeoutExpired
  | permissionError
deriving DecidableEq

/-- The observable effect of fix_permissions: its boolean return value, the
    subprocess calls it issued, and the console lines it printed. -/
structure FixResult where
  result : Bool
  calls : List SubprocessCall
  prints : List String
deriving DecidableEq

def msgNoMismatch : String :=
  "[bold green]✅ No permission mismatches detected.[/bold green]"

def dryRunHeader (n : Nat) : String :=
  "\n[bold cyan]📋 [Dry-run][/bold cyan] Found " ++ toString n
    ++ " files owned by root/other UIDs."

def previewLine (path : String) : String := "  • " ++ path

def moreLine (k : Nat) : String := "  ... and " ++ toString k ++ " more."

def msgRunExecute : String :=
  "\n[bold yellow]👉 Run with --execute to apply repairs.[/bold yellow]"

def msgWindows : String :=
  "[red]Error: Permission repairs are only supported on Linux/WSL.[/red]"

def applyingHeader (n : Nat) : String :=
  "[bold core_blue]🔧 Applying repairs to " ++ toString n
    ++ " paths...[/bold core_blue]"

def msgSuccess : String :=
  "[bold green]✅ Ownership reclaimed successfully![/bold green]"

def msgFailed (e : String) : String :=
  "[bold red]❌ Failed to fix permissions: " ++ e ++ "[/bold red]"

/-- fix_permissions: re-diagnoses internally, returns True at once on an empty
    mismatch list, handles dry-run, gates on the platform, and otherwise runs
    one batch sudo chown over the whole list with capture_output and a 60
    second timeout; the three caught exception classes yield False. -/
def fix_permissions (pm : PermissionManager) (system : String)
    (fs : Option (List Entry)) (outcome : RunOutcome) (errText : String)
    (execute : Bool) : FixResult :=
  let mismatches := diagnose pm fs
  if mismatches.isEmpty then
    { result := true, calls := [], prints := [msgNoMismatch] }
  else if !execute then
    { result := true
      calls := []
      prints := dryRunHeader mismatches.length
        :: (mismatches.take 5).map previewLine
        ++ (if mismatches.length > 5 then [moreLine (mismatches.length - 5)] else [])
        ++ [msgRunExecute] }
  else if system == "Windows" then
    { result := false, calls := [], prints := [msgWindows] }
  else
    let call : SubprocessCall :=
      { argv := ["sudo", "chown", toString pm.host_uid ++ ":" ++ toString pm.host_gid]
          ++ mismatches
        check := true
        capture_output := true
        timeout := 60 }
    match outcome with
    | RunOutcome.ok =>
        { result := true
          calls := [call]
          prints := [applyingHeader mismatches.length, msgSuccess] }
    | _ =>
        { result := false
          calls := [call]
          prints := [applyingHeader mismatches.length, msgFailed errText] }

/- Spec-side definitions, written from the wording of the spec, for the
   refinement claim about diagnose. -/

/-- Spec side: the files of one level in discovery order, each with its stat
    result. -/
def statFiles (root : String) (es : List Entry) : List (String × Option Nat) :=
  es.filterMap fun e =>
    match e with
    | Entry.file name st => some (pathJoin root name, st)
    | Entry.dir _ _ => none

mutual
/-- Spec side: the files discovered below one directory entry, with the same
    exclusion pruning as the scan. -/
def statEntry (root : String) : Entry → List (String × Option Nat)
  | Entry.file _ _ => []
  | Entry.dir name cs =>
      if EXCLUDED_DIRS.contains name then []
      else statFiles (pathJoin root name) cs ++ statDirs (pathJoin root name) cs

/-- Spec side: the files discovered below the subdirectories of a level. -/
def statDirs (root : String) : List Entry → List (String × Option Nat)
  | [] => []
  | e :: rest => statEntry root e ++ statDirs root rest
end

/-- Spec side: every file discovered by the walk, in discovery order. -/
def walkStats (root : String) (es : List Entry) : List (String × Option Nat) :=
  statFiles root es ++ statDirs root es

/-- Spec side, following the spec wording: keep exactly the discovered files
    whose owning uid is readable and differs from the host uid, in discovery
    order. -/
def specForeignOwned (hostUid : Nat) (xs : List (String × Option Nat)) :
    List String :=
  xs.filterMap fun pr =>
    match pr.2 with
    | some uid => if uid != hostUid then some pr.1 else none
    | none => none

/- Concrete instances used by witnesses and counterexamples. -/

/-- A manager built on Linux with host ids 1000:1000 over /proj. -/
def pmLinux : PermissionManager := mkPermissionManager "Linux" 1000 1000 "/proj"

/-- A manager built on Windows (sentinel ids 1000:1000) over /proj. -/
def pmWindows : PermissionManager := mkPermissionManager "Windows" 0 0 "/proj"

/-- The scenario tree of the spec: a root-owned file, a host-owned file, and
    a foreign-owned file inside an excluded directory. -/
def tree1 : List Entry :=
  [Entry.file "locked.txt" (some 0),
   Entry.file "normal.txt" (some 1000),
   Entry.dir "venv" [Entry.file "ghost.txt" (some 0)]]

/-- A directory whose name merely contains venv as a substring, holding a
    foreign-owned file. -/
def tree2 : List Entry :=
  [Entry.dir "my-venv-configs" [Entry.file "ghost.txt" (some 0)]]

/-- Seven foreign-owned files, to exercise the truncated dry-run preview. -/
def tree7 : List Entry :=
  [Entry.file "f1" (some 0), Entry.file "f2" (some 0), Entry.file "f3" (some 0),
   Entry.file "f4" (some 0), Entry.file "f5" (some 0), Entry.file "f6" (some 0),
   Entry.file "f7" (some 0)]

/-- A single host-owned file: no mismatch. -/
def treeOwned : List Entry := [Entry.file "mine.txt" (some 1000)]

/- Helper lemmas. -/

theorem fileMismatches_append (h : Nat) (root : String) (xs ys : List Entry) :
    fileMismatches h root (xs ++ ys) =
      fileMismatches h root xs ++ fileMismatches h root ys := by
  simp [fileMismatches, List.filterMap_append]

theorem dirRec_append (h : Nat) (root : String) (xs ys : List Entry) :
    dirRec h root (xs ++ ys) = dirRec h root xs ++ dirRec h root ys := by
  induction xs with
  | nil => simp [dirRec]
  | cons e rest ih => simp [dirRec, ih]

theorem specForeignOwned_append (h : Nat) (xs ys : List (String × Option Nat)) :
    specForeignOwned h (xs ++ ys) =
      specForeignOwned h xs ++ specForeignOwned h ys := by
  simp [specForeignOwned, List.filterMap_append]

theorem fileMismatches_eq_spec (h : Nat) (root : String) (es : List Entry) :
    fileMismatches h root es = specForeignOwned h (statFiles root es) := by
  induction es with
  | nil => rfl
  | cons e rest ih =>
      cases e with
      | file name st =>
          cases st with
          | none =>
              simpa [fileMismatches, statFiles, specForeignOwned,
                List.filterMap_cons] using ih
          | some uid =>
              by_cases hb : uid = h
              · simpa [fileMismatches, statFiles, specForeignOwned,
                  List.filterMap_cons, hb] using ih
              · simpa [fileMismatches, statFiles, specForeignOwned,
                  List.filterMap_cons, hb] using ih
      | dir name cs =>
          simpa [fileMismatches, statFiles, specForeignOwned,
            List.filterMap_cons] using ih

mutual
theorem walkEntry_eq_spec (h : Nat) (root : String) :
    (e : Entry) → walkEntry h root e = specForeignOwned h (statEntry root e)
  | Entry.file name st => by simp [walkEntry, statEntry, specForeignOwned]
  | Entry.dir name cs => by
      by_cases hx : name ∈ EXCLUDED_DIRS
      · simp [walkEntry, statEntry, hx, specForeignOwned]
      · simp [walkEntry, statEntry, hx, specForeignOwned_append,
          fileMismatches_eq_spec, dirRec_eq_spec h (pathJoin root name) cs]

theorem dirRec_eq_spec (h : Nat) (root : String) :
    (es : List Entry) → dirRec h root es = specForeignOwned h (statDirs root es)
  | [] => by simp [dirRec, statDirs, specForeignOwned]
  | e :: rest => by
      simp [dirRec, statDirs, specForeignOwned_append,
        walkEntry_eq_spec h root e, dirRec_eq_spec h root rest]
end

/- Claim theorems. -/

/-- C1: whenever the internally diagnosed path list is non-empty, execute is
    true and the platform is not Windows, fix_permissions issues exactly one
    subprocess call, whose argument vector is sudo, chown, the uid:gid target
    of the host identity, followed by the diagnosed paths in order, with
    check and capture_output set and a 60 second timeout. -/
theorem single_batch_chown_invocation (pm : PermissionManager) (system : String)
    (fs : Option (List Entry)) (outcome : RunOutcome) (errText : String)
    (hne : diagnose pm fs ≠ []) (hsys : (system == "Windows") = false) :
    (fix_permissions pm system fs outcome errText true).calls =
      [⟨["sudo", "chown", toString pm.host_uid ++ ":" ++ toString pm.host_gid]
          ++ diagnose pm fs, true, true, 60⟩] := by
  have hempty : (diagnose pm fs).isEmpty = false := by
    cases hd : diagnose pm fs with
    | nil => exact absurd hd hne
    | cons a l => rfl
  cases outcome with
  | ok => simp [fix_permissions, hempty, hsys]
  | calledProcessError => simp [fix_permissions, hempty, hsys]
  | timeoutExpired => simp [fix_permissions, hempty, hsys]
  | permissionError => simp [fix_permissions, hempty, hsys]

/-- Witness for C1 at the concrete scenario tree on Linux. -/
theorem single_batch_chown_invocation_witness :
    diagnose pmLinux (some tree1) ≠ [] ∧
      (fix_permissions pmLinux "Linux" (some tree1) RunOutcome.ok "" true).calls =
        [⟨["sudo", "chown", "1000:1000", "/proj/locked.txt"], true, true, 60⟩] :=
  ⟨by decide,
    single_batch_chown_invocation pmLinux "Linux" (some tree1) RunOutcome.ok ""
      (by decide) (by decide)⟩

/-- C2: diagnose returns exactly the discovered files whose owning uid is
    readable and differs from the host uid, as joined absolute paths, in
    discovery order, and nothing else. -/
theorem diagnose_returns_exactly_foreign_owned (pm : PermissionManager)
    (es : List Entry) :
    diagnose pm (some es) =
      specForeignOwned pm.host_uid (walkStats pm.base_path es) := by
  simp [diagnose, walkAll, walkStats, specForeignOwned_append,
    fileMismatches_eq_spec, dirRec_eq_spec]

/-- C3: a directory whose exact base name is in EXCLUDED_DIRS is never
    descended into, wherever it occurs in a level, while exclusion is not
    substring matching: the name my-venv-configs is not excluded and a
    foreign-owned file below it is reported. -/
theorem excluded_dirs_pruned_exact_segment :
    (∀ (h : Nat) (root name : String) (cs pre post : List Entry),
        EXCLUDED_DIRS.contains name = true →
        walkAll h root (pre ++ Entry.dir name cs :: post) =
          walkAll h root (pre ++ post))
    ∧ EXCLUDED_DIRS.contains "my-venv-configs" = false
    ∧ diagnose pmLinux (some tree2) = ["/proj/my-venv-configs/ghost.txt"] := by
  refine ⟨?_, by decide, by decide⟩
  intro h root name cs pre post hx
  have hx2 : name ∈ EXCLUDED_DIRS := by simpa using hx
  simp [walkAll, fileMismatches_append, dirRec_append, fileMismatches, dirRec,
    walkEntry, hx2, List.filterMap_cons]

/-- Witness for C3: pruning a concrete excluded directory. -/
theorem excluded_dirs_pruned_exact_segment_witness :
    walkAll 1000 "/proj" [Entry.dir "venv" [Entry.file "g.txt" (some 0)]] =
      walkAll 1000 "/proj" [] :=
  excluded_dirs_pruned_exact_segment.1 1000 "/proj" "venv"
    [Entry.file "g.txt" (some 0)] [] [] (by decide)

/-- C4: no error escapes the scan or the config check: a missing scan root
    yields an empty result, a file whose stat raises is skipped wherever it
    occurs, and an unreadable compose file yields no advisory. -/
theorem no_error_escapes_scan_or_config_check (pm : PermissionManager)
    (h : Nat) (root name : String) (pre post : List Entry) :
    diagnose pm none = []
    ∧ walkAll h root (pre ++ Entry.file name none :: post) =
        walkAll h root (pre ++ post)
    ∧ check_compose_config pm ComposeFile.unreadable = [] := by
  refine ⟨rfl, ?_, rfl⟩
  simp [walkAll, fileMismatches_append, dirRec_append, fileMismatches, dirRec,
    walkEntry, List.filterMap_cons]

/-- C5: with a non-empty mismatch list and execute false, fix_permissions
    issues no subprocess call, returns True, and prints the count, the first
    five paths, the and-K-more line exactly when more than five, and the
    execute instruction. -/
theorem dry_run_reports_and_succeeds (pm : PermissionManager) (system : String)
    (fs : Option (List Entry)) (outcome : RunOutcome) (errText : String)
    (hne : diagnose pm fs ≠ []) :
    fix_permissions pm system fs outcome errText false =
      { result := true
        calls := []
        prints := dryRunHeader (diagnose pm fs).length
          :: ((diagnose pm fs).take 5).map previewLine
          ++ (if (diagnose pm fs).length > 5
              then [moreLine ((diagnose pm fs).length - 5)] else [])
          ++ [msgRunExecute] } := by
  have hempty : (diagnose pm fs).isEmpty = false := by
    cases hd : diagnose pm fs with
    | nil => exact absurd hd hne
    | cons a l => rfl
  simp [fix_permissions, hempty]

/-- Witness for C5 on seven mismatches: five previews and an and-2-more line. -/
theorem dry_run_reports_and_succeeds_witness :
    diagnose pmLinux (some tree7) ≠ [] ∧
      fix_permissions pmLinux "Linux" (some tree7) RunOutcome.ok "err" false =
        { result := true
          calls := []
          prints := [dryRunHeader 7, previewLine "/proj/f1", previewLine "/proj/f2",
            previewLine "/proj/f3", previewLine "/proj/f4", previewLine "/proj/f5",
            moreLine 2, msgRunExecute] } :=
  ⟨by decide,
    dry_run_reports_and_succeeds pmLinux "Linux" (some tree7) RunOutcome.ok "err"
      (by decide)⟩

/-- C6: with a non-empty mismatch list, execute true on Windows returns False
    with no subprocess call and only the platform error line. -/
theorem windows_execute_fails_without_call (pm : PermissionManager)
    (fs : Option (List Entry)) (outcome : RunOutcome) (errText : String)
    (hne : diagnose pm fs ≠ []) :
    fix_permissions pm "Windows" fs outcome errText true =
      { result := false, calls := [], prints := [msgWindows] } := by
  have hempty : (diagnose pm fs).isEmpty = false := by
    cases hd : diagnose pm fs with
    | nil => exact absurd hd hne
    | cons a l => rfl
  simp [fix_permissions, hempty]

/-- Witness for C6 on the concrete scenario tree. -/
theorem windows_execute_fails_without_call_witness :
    diagnose pmWindows (some tree1) ≠ [] ∧
      fix_permissions pmWindows "Windows" (some tree1) RunOutcome.ok "" true =
        { result := false, calls := [], prints := [msgWindows] } :=
  ⟨by decide,
    windows_execute_fails_without_call pmWindows (some tree1) RunOutcome.ok ""
      (by decide)⟩

/-- C7: when the single privileged call exits non-zero, times out, or raises
    a permission error, fix_permissions returns False, and exactly the one
    call was issued (no retry). -/
theorem failed_privileged_call_returns_failure (pm : PermissionManager)
    (system : String) (fs : Option (List Entry)) (errText : String)
    (outcome : RunOutcome) (hne : diagnose pm fs ≠ [])
    (hsys : (system == "Windows") = false) (hout : outcome ≠ RunOutcome.ok) :
    (fix_permissions pm system fs outcome errText true).result = false
    ∧ (fix_permissions pm system fs outcome errText true).calls =
        [⟨["sudo", "chown", toString pm.host_uid ++ ":" ++ toString pm.host_gid]
            ++ diagnose pm fs, true, true, 60⟩] := by
  have hempty : (diagnose pm fs).isEmpty = false := by
    cases hd : diagnose pm fs with
    | nil => exact absurd hd hne
    | cons a l => rfl
  cases outcome with
  | ok => exact absurd rfl hout
  | calledProcessError => exact ⟨by simp [fix_permissions, hempty, hsys],
      by simp [fix_permissions, hempty, hsys]⟩
  | timeoutExpired => exact ⟨by simp [fix_permissions, hempty, hsys],
      by simp [fix_permissions, hempty, hsys]⟩
  | permissionError => exact ⟨by simp [fix_permissions, hempty, hsys],
      by simp [fix_permissions, hempty, hsys]⟩

/-- Witness for C7 with a timeout outcome. -/
theorem failed_privileged_call_returns_failure_witness :
    diagnose pmLinux (some tree1) ≠ [] ∧
      (fix_permissions pmLinux "Linux" (some tree1) RunOutcome.timeoutExpired
          "timed out" true).result = false ∧
      (fix_permissions pmLinux "Linux" (some tree1) RunOutcome.timeoutExpired
          "timed out" true).calls =
        [⟨["sudo", "chown", "1000:1000", "/proj/locked.txt"], true, true, 60⟩] :=
  ⟨by decide,
    (failed_privileged_call_returns_failure pmLinux "Linux" (some tree1)
      "timed out" RunOutcome.timeoutExpired (by decide) (by decide)
      (by decide)).1,
    (failed_privileged_call_returns_failure pmLinux "Linux" (some tree1)
      "timed out" RunOutcome.timeoutExpired (by decide) (by decide)
      (by decide)).2⟩

/-- C8: at a readable compose file lacking the user mapping token, the code
    emits an advisory that mentions the mapping token, but no emitted line
    contains the configuration filename docker-compose.yml, contrary to the
    claim and to the repository test that asserts the filename appears. -/
theorem compose_advisory_lacks_filename :
    check_compose_config pmLinux (ComposeFile.readable "version: 3") ≠ []
    ∧ (check_compose_config pmLinux (ComposeFile.readable "version: 3")).any
        (fun m => strContains m "user:") = true
    ∧ (check_compose_config pmLinux (ComposeFile.readable "version: 3")).any
        (fun m => strContains m "docker-compose.yml") = false :=
  ⟨by decide, by decide, by decide⟩

/-- C9: when diagnose finds nothing, fix_permissions returns True at once,
    issues no subprocess call, and prints only the no-mismatch line, for any
    execute flag and platform string. -/
theorem empty_mismatches_trivial_success (pm : PermissionManager)
    (system : String) (fs : Option (List Entry)) (outcome : RunOutcome)
    (errText : String) (execute : Bool) (hempty : diagnose pm fs = []) :
    fix_permissions pm system fs outcome errText execute =
      { result := true, calls := [], prints := [msgNoMismatch] } := by
  simp [fix_permissions, hempty]

/-- Witness for C9 on a tree with only a host-owned file, execute true. -/
theorem empty_mismatches_trivial_success_witness :
    diagnose pmLinux (some treeOwned) = [] ∧
      fix_permissions pmLinux "Linux" (some treeOwned) RunOutcome.ok "" true =
        { result := true, calls := [], prints := [msgNoMismatch] } :=
  ⟨by decide,
    empty_mismatches_trivial_success pmLinux "Linux" (some treeOwned)
      RunOutcome.ok "" true (by decide)⟩

/-- C10: the empty-mismatch check precedes the platform gate, so with an
    empty mismatch list and execute true on Windows the result is success
    with no call, not the platform-unsupported failure. -/
theorem empty_check_precedes_platform_gate (pm : PermissionManager)
    (fs : Option (List Entry)) (outcome : RunOutcome) (errText : String)
    (hempty : diagnose pm fs = []) :
    (fix_permissions pm "Windows" fs outcome errText true).result = true
    ∧ (fix_permissions pm "Windows" fs outcome errText true).calls = []
    ∧ (fix_permissions pm "Windows" fs outcome errText true).prints =
        [msgNoMismatch] := by
  simp [fix_permissions, hempty]

/-- Witness for C10 on a missing base path under Windows. -/
theorem empty_check_precedes_platform_gate_witness :
    diagnose pmWindows none = [] ∧
      (fix_permissions pmWindows "Windows" none RunOutcome.ok "" true).result = true ∧
      (fix_permissions pmWindows "Windows" none RunOutcome.ok "" true).calls = [] :=
  ⟨rfl,
    (empty_check_precedes_platform_gate pmWindows none RunOutcome.ok "" rfl).1,
    (empty_check_precedes_platform_gate pmWindows none RunOutcome.ok "" rfl).2.1⟩
